import Mathlib

/-!
Verification development for the inventory dashboard (`src/main.py`).

The only algorithmic component is the bulk-import loop of the
"Carga Masiva (CSV)" branch (`src/main.py:224-252`), plus the
dashboard valuation KPI (`src/main.py:99-108`).  We give a shallow
embedding of both and prove the specified properties.

Modelling conventions:
* A dataframe cell is either the pandas missing value `NaN` (`Cell.na`),
  a string, an integer, or a float.  Floats are modelled exactly as
  rationals; the claims at hand only involve float values and float
  arithmetic that are exact (small integers, divisions `(i+1)/n`), so
  the rational model agrees with IEEE semantics on everything stated.
* A row is an association list from column names to cells; a missing
  column makes the subscript `row[col]` raise `KeyError`, modelled as
  a lookup returning `none`.
* The stored procedure `sp_registrar_movimiento` lives in the external
  database; the spec treats the call as atomic and opaque, so it is a
  parameter `submit : Call → Except String Unit` (error = the message of
  the raised exception).
* `get_connection()` returns a live connection or `None`
  (`src/main.py:15-28`); modelled by `ConnState`.  Attribute access on
  `None` raises `AttributeError`.
* Exception message texts are kept close to CPython's, with the quote
  characters dropped.
-/

namespace ProyectoInventario

/-- A pandas dataframe cell: missing (`NaN`), string, int, or float
(floats modelled as exact rationals). -/
inductive Cell where
  | na : Cell
  | s (v : String) : Cell
  | i (v : Int) : Cell
  | f (v : Rat) : Cell
deriving DecidableEq, Repr

/-- `pd.notna`: true on every cell except the missing value. -/
def pdNotna : Cell → Bool
  | .na => false
  | _ => true

/-- `pd.isna`: true exactly on the missing value. -/
def pdIsna (c : Cell) : Bool := !(pdNotna c)

/-- One input row: an association list from column name to cell. -/
abbrev Row := List (String × Cell)

/-- Column subscript `row[col]`: `none` models a raised `KeyError`. -/
def colGet (row : Row) (col : String) : Option Cell :=
  (row.find? (fun p => p.1 == col)).map (fun p => p.2)

/-- Message of the `KeyError` raised by a missing column subscript. -/
def keyErrMsg (col : String) : String := "KeyError: " ++ col

/-- Message of the `AttributeError` raised by `None.cursor`. -/
def attrErrMsg : String := "AttributeError: NoneType object has no attribute cursor"

/-- Message of the `AttributeError` raised by `None.close()`. -/
def closeErrMsg : String := "AttributeError: NoneType object has no attribute close"

/-- Message of the `ValueError` raised by `int()` on a bad literal. -/
def intErrMsg (v : String) : String := "invalid literal for int() with base 10: " ++ v

/-- Message of the `ValueError` raised by `float()` on a bad literal. -/
def floatErrMsg (v : String) : String := "could not convert string to float: " ++ v

/-- Python `str()` rendering of a float.  Exact for integer-valued
floats (`str(1001.0) = "1001.0"`), which is the only case the source
data can produce through pandas type inference on integer SKU columns. -/
def pyFloatRepr (q : Rat) : String :=
  if q.den = 1 then toString q.num ++ ".0" else toString q

/-- Python `str()` on a cell value. -/
def pyStr : Cell → String
  | .na => "nan"
  | .s v => v
  | .i v => toString v
  | .f v => pyFloatRepr v

/-- Truncation toward zero, the rounding of Python `int(float)`. -/
def ratTrunc (q : Rat) : Int := if 0 ≤ q then q.floor else q.ceil

/-- Whitespace stripping (`str.strip()`), on a character list. -/
def trimChars (l : List Char) : List Char :=
  ((l.dropWhile Char.isWhitespace).reverse.dropWhile Char.isWhitespace).reverse

/-- Value of a list of decimal digit characters. -/
def digitsVal (l : List Char) : Nat :=
  l.foldl (fun a c => a * 10 + (c.toNat - 48)) 0

/-- All characters are decimal digits. -/
def allDigits (l : List Char) : Bool := l.all (fun c => c.isDigit)

/-- Parse a non-empty unsigned run of decimal digits. -/
def natParse (l : List Char) : Option Nat :=
  if allDigits l && !l.isEmpty then some (digitsVal l) else none

/-- Parse a Python `int()` string literal: optional surrounding
whitespace, optional sign, decimal digits. -/
def pyIntParse (v : String) : Option Int :=
  match trimChars v.data with
  | '-' :: rest => (natParse rest).map (fun n => -(n : Int))
  | '+' :: rest => (natParse rest).map (fun n => (n : Int))
  | rest => (natParse rest).map (fun n => (n : Int))

/-- Python `int(x)` on a cell value: ints pass through, floats truncate
toward zero, strings must be decimal integer literals, anything else
raises `ValueError`. -/
def pyIntOfCell : Cell → Except String Int
  | .i v => .ok v
  | .f v => .ok (ratTrunc v)
  | .s v =>
    match pyIntParse v with
    | some n => .ok n
    | none => .error (intErrMsg v)
  | .na => .error "cannot convert float NaN to integer"

/-- Split a character list at its first dot. -/
def splitAtDot : List Char → (List Char × Option (List Char))
  | [] => ([], none)
  | c :: rest =>
    if c = '.' then ([], some rest)
    else
      let p := splitAtDot rest
      (c :: p.1, p.2)

/-- Parse an unsigned Python float literal `digits[.digits]` (at least
one digit on one of the two sides). -/
def floatUnsigned (l : List Char) : Option Rat :=
  match splitAtDot l with
  | (a, none) => (natParse a).map (fun n => (n : Rat))
  | (a, some b) =>
    if allDigits a && allDigits b && !(a.isEmpty && b.isEmpty) then
      some ((digitsVal a : Rat) + (digitsVal b : Rat) / ((10 : Rat) ^ b.length))
    else none

/-- Parse a Python `float()` decimal literal `[ws][+-]digits[.digits][ws]`
(no exponent/inf/nan forms, which the import data cannot contain). -/
def pyFloatParse (s : String) : Option Rat :=
  match trimChars s.data with
  | '-' :: rest => (floatUnsigned rest).map (fun q => -q)
  | '+' :: rest => floatUnsigned rest
  | rest => floatUnsigned rest

/-- Python `float(x)` on a cell value. (`float` of the missing value is
unreachable in the import loop: the null default replaces it first.) -/
def pyFloatOfCell : Cell → Except String Rat
  | .f v => .ok v
  | .i v => .ok (v : Rat)
  | .s v =>
    match pyFloatParse v with
    | some q => .ok q
    | none => .error (floatErrMsg v)
  | .na => .ok 0

/-- One `sp_registrar_movimiento` invocation, with the argument values
the source passes: `(str(sku), date.today(), tipo_mov, int(cant), float(val))`
(`src/main.py:241-243`).  Dates are abstracted as a `Nat` token. -/
structure Call where
  sku : String
  fecha : Nat
  tipo : String
  cant : Int
  val : Rat
deriving DecidableEq, Repr

/-- The opaque authoritative store: a call either returns or raises. -/
abbrev Store := Call → Except String Unit

/-- A store that accepts every submission. -/
def okStore : Store := fun _ => .ok ()

/-- Result of `get_connection()`: a live connection or `None`. -/
inductive ConnState where
  | live
  | unavailable
deriving DecidableEq, Repr

/-- Terminal state of one row of the import loop. -/
inductive Outcome where
  | skipped
  | success (c : Call)
  | failure (msg : String)
deriving DecidableEq, Repr

/-- The error string appended for a failing row: `f"Fila {i}: {e}"`
(`src/main.py:247`). -/
def tagMsg (i : Nat) (m : String) : String := s!"Fila {i}: {m}"

/-- Lines 232-235 of the loop body: subscript the three columns
(`Código`, `cant`, `Valor Unitar`), raising `KeyError` on a missing
one, and apply the `pd.notna(...) ... else 0` null defaults to the
quantity and unit-value cells.  Returns `(sku, cant, val)`. -/
def lookupPhase (row : Row) : Except String (Cell × Cell × Cell) :=
  match colGet row "Código" with
  | none => .error (keyErrMsg "Código")
  | some sku =>
    match colGet row "cant" with
    | none => .error (keyErrMsg "cant")
    | some c0 =>
      match colGet row "Valor Unitar" with
      | none => .error (keyErrMsg "Valor Unitar")
      | some v0 =>
        .ok (sku, (if pdNotna c0 then c0 else .i 0), (if pdNotna v0 then v0 else .i 0))

/-- Outcome of the `cur.execute` call on an already-built argument tuple. -/
def submitOutcome (submit : Store) (c : Call) : Outcome :=
  match submit c with
  | .ok _ => .success c
  | .error m => .failure m

/-- One iteration of the import loop body (`src/main.py:231-247`),
in source order: column subscripts and null defaults, the
`pd.isna(sku)` skip `continue`, cursor acquisition on the connection
(`AttributeError` when `get_connection` returned `None`), the
`int`/`float` coercions of the argument tuple, then the store call.
The surrounding `try/except` turns every raised exception into a
`failure` outcome. -/
def processRow (conn : ConnState) (today : Nat) (submit : Store) (row : Row) : Outcome :=
  match lookupPhase row with
  | .error m => .failure m
  | .ok (sku, cant, val) =>
    if pdIsna sku then .skipped
    else
      match conn with
      | .unavailable => .failure attrErrMsg
      | .live =>
        match pyIntOfCell cant with
        | .error m => .failure m
        | .ok cantI =>
          match pyFloatOfCell val with
          | .error m => .failure m
          | .ok valQ =>
            submitOutcome submit ⟨pyStr sku, today, "ENTRADA", cantI, valQ⟩

/-- Accumulated observable state of the loop: the per-row outcomes (a
ghost trace, one entry per input row), the `exitos` counter, the
`errores` list, the emitted progress fractions, and the store calls
made, all in row order. -/
structure RowsOut where
  outcomes : List Outcome
  exitos : Nat
  errores : List String
  progress : List Rat
  calls : List Call
deriving DecidableEq, Repr

/-- The `for i, row in df_upload.iterrows()` loop (`src/main.py:230-248`)
from row index `i` on, with `n` the total row count.  A skipped row
(`continue`) bypasses the `barra.progress((i + 1) / len(df_upload))`
emission; success and failure rows both reach it. -/
def runRows (conn : ConnState) (today : Nat) (submit : Store) (n : Nat) :
    Nat → List Row → RowsOut
  | _, [] => ⟨[], 0, [], [], []⟩
  | i, r :: rest =>
    let o := processRow conn today submit r
    let t := runRows conn today submit n (i + 1) rest
    match o with
    | .skipped => ⟨o :: t.outcomes, t.exitos, t.errores, t.progress, t.calls⟩
    | .success c =>
      ⟨o :: t.outcomes, t.exitos + 1, t.errores,
        ((i + 1 : Nat) : Rat) / (n : Rat) :: t.progress, c :: t.calls⟩
    | .failure m =>
      ⟨o :: t.outcomes, t.exitos, tagMsg i m :: t.errores,
        ((i + 1 : Nat) : Rat) / (n : Rat) :: t.progress, t.calls⟩

/-- Full observable state of one "Procesar Archivo" run. -/
structure RunReport where
  outcomes : List Outcome
  exitos : Nat
  errores : List String
  progress : List Rat
  calls : List Call
  closedConn : Bool
  successShown : Bool
  runError : Option String
deriving DecidableEq, Repr

/-- The "🚀 Procesar Archivo" branch (`src/main.py:224-252`):
acquire the connection, create the progress bar at 0, run the loop over
all rows, then `conn.close()` and the final `st.success` report.  When
`get_connection()` returned `None` the loop still runs (each non-skipped
row fails with `AttributeError`), and `conn.close()` then raises
`AttributeError`, caught by the outer handler — so the report line is
never shown and a run-level error surfaces. -/
def runImport (conn : ConnState) (today : Nat) (submit : Store) (rows : List Row) :
    RunReport :=
  let body := runRows conn today submit rows.length 0 rows
  match conn with
  | .live =>
    ⟨body.outcomes, body.exitos, body.errores, 0 :: body.progress, body.calls,
      true, true, none⟩
  | .unavailable =>
    ⟨body.outcomes, body.exitos, body.errores, 0 :: body.progress, body.calls,
      false, false, some closeErrMsg⟩

/-- Is an outcome a skip? -/
def isSkip : Outcome → Bool
  | .skipped => true
  | _ => false

/-- Is an outcome a success? -/
def isSucc : Outcome → Bool
  | .success _ => true
  | _ => false

/-- Is an outcome a failure? -/
def isFail : Outcome → Bool
  | .failure _ => true
  | _ => false

/-- The call carried by a success outcome. -/
def successCall : Outcome → Option Call
  | .success c => some c
  | _ => none

/-- One row of the dashboard dataframe returned by
`fn_obtener_estado_inventario()`.  Besides the stock level and alert
class the store also carries pricing data for the product; the field
`precio_unitario` stands for that stored unit price, so that we can
state that the valuation KPI never consults it. -/
structure DashRow where
  stock_actual : Int
  alerta_estado : String
  precio_unitario : Rat
deriving DecidableEq, Repr

/-- The dashboard's estimated-value KPI (`src/main.py:99-105`):
`(df['stock_actual'] * 10).sum()` on a non-empty frame, else `0`. -/
def valorAprox (df : List DashRow) : Int :=
  if df.isEmpty then 0 else (df.map (fun r => r.stock_actual * 10)).sum

/-- A well-formed input row: valid SKU, integer quantity, float value. -/
def rowOK : Row := [("Código", .s "A1"), ("cant", .i 5), ("Valor Unitar", .f 10)]

/-- A row with a non-numeric string in the quantity column. -/
def rowBadCant : Row := [("Código", .s "A7"), ("cant", .s "x"), ("Valor Unitar", .i 2)]

/-- A row with a non-numeric string in the unit-value column. -/
def rowBadVal : Row := [("Código", .s "B2"), ("cant", .i 3), ("Valor Unitar", .s "abc")]

/-- A row with a null SKU cell (all columns present). -/
def rowNullSku : Row := [("Código", .na), ("cant", .i 1), ("Valor Unitar", .i 1)]

/-- A row from a file that has no `cant` column, with a null SKU cell. -/
def rowNoCantCol : Row := [("Código", .na), ("Valor Unitar", .i 1)]

/-- A row with null quantity and unit-value cells. -/
def rowNullCells : Row := [("Código", .s "A3"), ("cant", .na), ("Valor Unitar", .na)]

/-- A row with a null quantity cell and a present unit-value cell. -/
def rowNullCant : Row := [("Código", .s "A5"), ("cant", .na), ("Valor Unitar", .f 2)]

/-- A row whose SKU cell is float-typed (pandas inferred a float column). -/
def rowFloatSku : Row := [("Código", .f 1001), ("cant", .i 1), ("Valor Unitar", .i 1)]

/-- The same row with an int-typed SKU cell. -/
def rowIntSku : Row := [("Código", .i 1001), ("cant", .i 1), ("Valor Unitar", .i 1)]

/-! ## Structural lemmas about the loop -/

/-- Each input row leaves exactly one outcome in the trace, and that
outcome is a function of the row alone — it does not depend on the row
index nor on any earlier row's fate. -/
theorem runRows_outcomes (conn : ConnState) (today : Nat) (submit : Store)
    (n : Nat) (i : Nat) (rows : List Row) :
    (runRows conn today submit n i rows).outcomes =
      rows.map (processRow conn today submit) := by
  induction rows generalizing i with
  | nil => rfl
  | cons r rest ih =>
    cases h : processRow conn today submit r <;>
      simp [runRows, h, ih]

/-- The `exitos` counter counts exactly the success outcomes. -/
theorem runRows_exitos (conn : ConnState) (today : Nat) (submit : Store)
    (n : Nat) (i : Nat) (rows : List Row) :
    (runRows conn today submit n i rows).exitos =
      (rows.map (processRow conn today submit)).countP isSucc := by
  induction rows generalizing i with
  | nil => rfl
  | cons r rest ih =>
    cases h : processRow conn today submit r <;>
      simp [runRows, h, ih, List.countP_cons, isSucc]

/-- The `errores` list has exactly one entry per failure outcome. -/
theorem runRows_errores_length (conn : ConnState) (today : Nat) (submit : Store)
    (n : Nat) (i : Nat) (rows : List Row) :
    (runRows conn today submit n i rows).errores.length =
      (rows.map (processRow conn today submit)).countP isFail := by
  induction rows generalizing i with
  | nil => rfl
  | cons r rest ih =>
    cases h : processRow conn today submit r <;>
      simp [runRows, h, ih, List.countP_cons, isFail]

/-- The calls made are exactly the calls carried by success outcomes,
in row order. -/
theorem runRows_calls (conn : ConnState) (today : Nat) (submit : Store)
    (n : Nat) (i : Nat) (rows : List Row) :
    (runRows conn today submit n i rows).calls =
      (rows.map (processRow conn today submit)).filterMap successCall := by
  induction rows generalizing i with
  | nil => rfl
  | cons r rest ih =>
    cases h : processRow conn today submit r <;>
      simp [runRows, h, ih, successCall]

/-- Every outcome is exactly one of skip, success, failure. -/
theorem outcome_partition (l : List Outcome) :
    l.countP isSucc + l.countP isFail + l.countP isSkip = l.length := by
  induction l with
  | nil => rfl
  | cons o rest ih =>
    cases o <;> simp [List.countP_cons, isSucc, isFail, isSkip] <;> omega

/-- Membership in the `errores` list: the entries are precisely the
failure messages of the failing rows, each tagged with that row's
index. -/
theorem mem_errores_iff (conn : ConnState) (today : Nat) (submit : Store)
    (n : Nat) (i : Nat) (rows : List Row) (x : String) :
    x ∈ (runRows conn today submit n i rows).errores ↔
      ∃ k r m, rows[k]? = some r ∧
        processRow conn today submit r = .failure m ∧ x = tagMsg (i + k) m := by
  induction rows generalizing i with
  | nil => simp [runRows]
  | cons r0 rest ih =>
    cases h : processRow conn today submit r0 with
    | skipped =>
      simp only [runRows, h, ih]
      constructor
      · rintro ⟨k, r, m, hk, hp, hx⟩
        exact ⟨k + 1, r, m, by simpa using hk, hp, by rw [hx]; ring_nf⟩
      · rintro ⟨k, r, m, hk, hp, hx⟩
        cases k with
        | zero =>
          simp at hk
          rw [← hk] at hp
          rw [hp] at h
          exact absurd h (by simp)
        | succ k =>
          exact ⟨k, r, m, by simpa using hk, hp, by rw [hx]; ring_nf⟩
    | success c =>
      simp only [runRows, h, ih]
      constructor
      · rintro ⟨k, r, m, hk, hp, hx⟩
        exact ⟨k + 1, r, m, by simpa using hk, hp, by rw [hx]; ring_nf⟩
      · rintro ⟨k, r, m, hk, hp, hx⟩
        cases k with
        | zero =>
          simp at hk
          rw [← hk] at hp
          rw [hp] at h
          exact absurd h (by simp)
        | succ k =>
          exact ⟨k, r, m, by simpa using hk, hp, by rw [hx]; ring_nf⟩
    | failure m0 =>
      simp only [runRows, h, List.mem_cons, ih]
      constructor
      · rintro (hx | ⟨k, r, m, hk, hp, hx⟩)
        · exact ⟨0, r0, m0, by simp, h, by simpa using hx⟩
        · exact ⟨k + 1, r, m, by simpa using hk, hp, by rw [hx]; ring_nf⟩
      · rintro ⟨k, r, m, hk, hp, hx⟩
        cases k with
        | zero =>
          simp at hk
          rw [← hk] at hp
          rw [hp] at h
          obtain rfl : m0 = m := by
            injection h with hmm
            exact hmm.symm
          exact Or.inl (by simpa using hx)
        | succ k =>
          exact Or.inr ⟨k, r, m, by simpa using hk, hp, by rw [hx]; ring_nf⟩

/-- Membership in the emitted progress sequence: a fraction
`(i + k + 1) / n` is emitted exactly for each non-skipped row `k`. -/
theorem mem_progress_iff (conn : ConnState) (today : Nat) (submit : Store)
    (n : Nat) (i : Nat) (rows : List Row) (x : Rat) :
    x ∈ (runRows conn today submit n i rows).progress ↔
      ∃ k r, rows[k]? = some r ∧
        processRow conn today submit r ≠ .skipped ∧
        x = ((i + k + 1 : Nat) : Rat) / (n : Rat) := by
  induction rows generalizing i with
  | nil => simp [runRows]
  | cons r0 rest ih =>
    cases h : processRow conn today submit r0 with
    | skipped =>
      simp only [runRows, h, ih]
      constructor
      · rintro ⟨k, r, hk, hp, hx⟩
        refine ⟨k + 1, r, by simpa using hk, hp, ?_⟩
        rw [hx]
        congr 2
        omega
      · rintro ⟨k, r, hk, hp, hx⟩
        cases k with
        | zero =>
          simp at hk
          rw [← hk] at hp
          exact absurd h hp
        | succ k =>
          refine ⟨k, r, by simpa using hk, hp, ?_⟩
          rw [hx]
          congr 2
          omega
    | success c =>
      simp only [runRows, h, List.mem_cons, ih]
      constructor
      · rintro (hx | ⟨k, r, hk, hp, hx⟩)
        · exact ⟨0, r0, by simp, by simp [h], by simpa using hx⟩
        · refine ⟨k + 1, r, by simpa using hk, hp, ?_⟩
          rw [hx]
          congr 2
          omega
      · rintro ⟨k, r, hk, hp, hx⟩
        cases k with
        | zero =>
          simp at hk
          exact Or.inl (by simpa using hx)
        | succ k =>
          refine Or.inr ⟨k, r, by simpa using hk, hp, ?_⟩
          rw [hx]
          congr 2
          omega
    | failure m0 =>
      simp only [runRows, h, List.mem_cons, ih]
      constructor
      · rintro (hx | ⟨k, r, hk, hp, hx⟩)
        · exact ⟨0, r0, by simp, by simp [h], by simpa using hx⟩
        · refine ⟨k + 1, r, by simpa using hk, hp, ?_⟩
          rw [hx]
          congr 2
          omega
      · rintro ⟨k, r, hk, hp, hx⟩
        cases k with
        | zero =>
          simp at hk
          exact Or.inl (by simpa using hx)
        | succ k =>
          refine Or.inr ⟨k, r, by simpa using hk, hp, ?_⟩
          rw [hx]
          congr 2
          omega

/-- Same-denominator monotonicity for the emitted fractions. -/
theorem progress_frac_mono (a b nn : Nat) (hab : a ≤ b) :
    ((a : Nat) : Rat) / ((nn : Nat) : Rat) ≤ ((b : Nat) : Rat) / ((nn : Nat) : Rat) := by
  have hab' : ((a : Nat) : Rat) ≤ ((b : Nat) : Rat) := by exact_mod_cast hab
  have hn : (0 : Rat) ≤ ((nn : Nat) : Rat) := by positivity
  exact div_le_div_of_nonneg_right hab' hn

/-- Every emitted fraction is nonnegative. -/
theorem runRows_progress_nonneg (conn : ConnState) (today : Nat) (submit : Store)
    (n : Nat) (i : Nat) (rows : List Row) (x : Rat)
    (hx : x ∈ (runRows conn today submit n i rows).progress) : 0 ≤ x := by
  obtain ⟨k, r, _, _, rfl⟩ :=
    (mem_progress_iff conn today submit n i rows x).mp hx
  positivity

/-- The emitted fractions within the loop are sorted (non-decreasing). -/
theorem runRows_progress_sorted (conn : ConnState) (today : Nat) (submit : Store)
    (n : Nat) (i : Nat) (rows : List Row) :
    ((runRows conn today submit n i rows).progress).Pairwise (· ≤ ·) := by
  induction rows generalizing i with
  | nil => simp [runRows]
  | cons r rest ih =>
    have step : ∀ x ∈ (runRows conn today submit n (i + 1) rest).progress,
        ((i + 1 : Nat) : Rat) / (n : Rat) ≤ x := by
      intro x hx
      obtain ⟨k, r', _, _, rfl⟩ :=
        (mem_progress_iff conn today submit n (i + 1) rest x).mp hx
      exact progress_frac_mono (i + 1) (i + 1 + k + 1) n (by omega)
    cases h : processRow conn today submit r with
    | skipped => simpa [runRows, h] using ih (i + 1)
    | success c =>
      simp only [runRows, h]
      exact List.Pairwise.cons step (ih (i + 1))
    | failure m =>
      simp only [runRows, h]
      exact List.Pairwise.cons step (ih (i + 1))

/-- The progress sequence of a full run, starting from the
`st.progress(0)` creation. -/
theorem runImport_progress (conn : ConnState) (today : Nat) (submit : Store)
    (rows : List Row) :
    (runImport conn today submit rows).progress =
      0 :: (runRows conn today submit rows.length 0 rows).progress := by
  cases conn <;> rfl

/-- The outcome trace of a full run. -/
theorem runImport_outcomes (conn : ConnState) (today : Nat) (submit : Store)
    (rows : List Row) :
    (runImport conn today submit rows).outcomes =
      (runRows conn today submit rows.length 0 rows).outcomes := by
  cases conn <;> rfl

/-- The success counter of a full run. -/
theorem runImport_exitos (conn : ConnState) (today : Nat) (submit : Store)
    (rows : List Row) :
    (runImport conn today submit rows).exitos =
      (runRows conn today submit rows.length 0 rows).exitos := by
  cases conn <;> rfl

/-- The failure list of a full run. -/
theorem runImport_errores (conn : ConnState) (today : Nat) (submit : Store)
    (rows : List Row) :
    (runImport conn today submit rows).errores =
      (runRows conn today submit rows.length 0 rows).errores := by
  cases conn <;> rfl

/-- The store-call trace of a full run. -/
theorem runImport_calls (conn : ConnState) (today : Nat) (submit : Store)
    (rows : List Row) :
    (runImport conn today submit rows).calls =
      (runRows conn today submit rows.length 0 rows).calls := by
  cases conn <;> rfl

/-- The fraction `1.0` is emitted iff the file is non-empty and its
last row is not skipped. -/
theorem one_mem_progress_iff (conn : ConnState) (today : Nat) (submit : Store)
    (rows : List Row) :
    ((1 : Rat) ∈ (runImport conn today submit rows).progress ↔
      ∃ r, rows.getLast? = some r ∧ processRow conn today submit r ≠ .skipped) := by
  rw [runImport_progress]
  have h10 : (1 : Rat) ≠ 0 := one_ne_zero
  simp only [List.mem_cons, h10, false_or]
  rw [mem_progress_iff]
  constructor
  · rintro ⟨k, r, hk, hp, hx⟩
    have hklt : k < rows.length := by
      by_contra hge
      rw [List.getElem?_eq_none (by omega)] at hk
      exact absurd hk (by simp)
    have hn : ((rows.length : Nat) : Rat) ≠ 0 := Nat.cast_ne_zero.mpr (by omega)
    field_simp at hx
    have hkn : k + 1 = rows.length := by exact_mod_cast hx.symm
    have hlast : rows.getLast? = rows[rows.length - 1]? := List.getLast?_eq_getElem? rows
    refine ⟨r, ?_, hp⟩
    rw [hlast]
    have : rows.length - 1 = k := by omega
    rw [this]
    exact hk
  · rintro ⟨r, hlast, hp⟩
    have hne : rows ≠ [] := by
      intro h0
      rw [h0] at hlast
      exact absurd hlast (by simp)
    have hpos : 0 < rows.length := List.length_pos.mpr hne
    have hk : rows[rows.length - 1]? = some r := by
      rw [← List.getLast?_eq_getElem? rows]
      exact hlast
    refine ⟨rows.length - 1, r, hk, hp, ?_⟩
    have hcast : ((0 + (rows.length - 1) + 1 : Nat) : Rat) = (rows.length : Rat) := by
      congr 1
      omega
    rw [hcast]
    exact (div_self (by exact_mod_cast Nat.cast_ne_zero.mpr (by omega))).symm

/-- Every success outcome's call has the hard-coded direction
`"ENTRADA"`, the processing day's date, and the `str()` rendering of
the raw SKU cell found by the lookup phase. -/
theorem success_shape (conn : ConnState) (today : Nat) (submit : Store)
    (row : Row) (c : Call)
    (h : processRow conn today submit row = .success c) :
    c.tipo = "ENTRADA" ∧ c.fecha = today ∧
      ∃ sku cant val, lookupPhase row = .ok (sku, cant, val) ∧ c.sku = pyStr sku := by
  unfold processRow at h
  cases hl : lookupPhase row with
  | error m =>
    rw [hl] at h
    exact absurd h (by simp)
  | ok triple =>
    obtain ⟨sku, cant, val⟩ := triple
    rw [hl] at h
    dsimp only at h
    by_cases hs : pdIsna sku = true
    · rw [if_pos] at h
      · exact absurd h (by simp)
      · exact hs
    · rw [if_neg] at h
      · cases conn with
        | unavailable => exact absurd h (by simp)
        | live =>
          dsimp only at h
          cases hi : pyIntOfCell cant with
          | error m =>
            rw [hi] at h
            exact absurd h (by simp)
          | ok cantI =>
            rw [hi] at h
            dsimp only at h
            cases hf : pyFloatOfCell val with
            | error m =>
              rw [hf] at h
              exact absurd h (by simp)
            | ok valQ =>
              rw [hf] at h
              dsimp only at h
              unfold submitOutcome at h
              cases hsub : submit ⟨pyStr sku, today, "ENTRADA", cantI, valQ⟩ with
              | error m =>
                rw [hsub] at h
                exact absurd h (by simp)
              | ok u =>
                rw [hsub] at h
                dsimp only at h
                obtain rfl : (⟨pyStr sku, today, "ENTRADA", cantI, valQ⟩ : Call) = c := by
                  injection h
                exact ⟨rfl, rfl, sku, cant, val, rfl, rfl⟩
      · exact hs

/-- A row whose lookup phase succeeds with a null SKU cell is skipped,
whatever the connection, store, date, and remaining cells. -/
theorem nullsku_skipped (conn : ConnState) (today : Nat) (submit : Store)
    (row : Row) (sku cant val : Cell)
    (hl : lookupPhase row = .ok (sku, cant, val)) (hs : pdIsna sku = true) :
    processRow conn today submit row = .skipped := by
  unfold processRow
  rw [hl]
  dsimp only
  rw [if_pos hs]

/-- A row whose lookup phase succeeds, with a non-null SKU, is — on a
live connection — decided by the coercions and the store call on the
tuple the source builds. -/
theorem nonskip_row_eval (today : Nat) (submit : Store)
    (row : Row) (sku cant val : Cell)
    (hl : lookupPhase row = .ok (sku, cant, val)) (hs : pdIsna sku = false) :
    processRow .live today submit row =
      (match pyIntOfCell cant with
       | .error m => .failure m
       | .ok cantI =>
         match pyFloatOfCell val with
         | .error m => .failure m
         | .ok valQ => submitOutcome submit ⟨pyStr sku, today, "ENTRADA", cantI, valQ⟩) := by
  unfold processRow
  rw [hl]
  dsimp only
  rw [if_neg (by simp [hs])]

/-- Evaluation of the lookup phase when all three columns are present. -/
theorem lookupPhase_of_cols (row : Row) (sku c0 v0 : Cell)
    (h1 : colGet row "Código" = some sku)
    (h2 : colGet row "cant" = some c0)
    (h3 : colGet row "Valor Unitar" = some v0) :
    lookupPhase row =
      .ok (sku, (if pdNotna c0 then c0 else .i 0), (if pdNotna v0 then v0 else .i 0)) := by
  unfold lookupPhase
  rw [h1, h2, h3]

/-- Evaluation of the lookup phase when the `cant` column is missing. -/
theorem lookupPhase_of_no_cant (row : Row) (sku : Cell)
    (h1 : colGet row "Código" = some sku)
    (h2 : colGet row "cant" = none) :
    lookupPhase row = .error (keyErrMsg "cant") := by
  unfold lookupPhase
  rw [h1, h2]

/-- Evaluation of the lookup phase when the `Valor Unitar` column is
missing (`Código` and `cant` present). -/
theorem lookupPhase_of_no_val (row : Row) (sku c0 : Cell)
    (h1 : colGet row "Código" = some sku)
    (h2 : colGet row "cant" = some c0)
    (h3 : colGet row "Valor Unitar" = none) :
    lookupPhase row = .error (keyErrMsg "Valor Unitar") := by
  unfold lookupPhase
  rw [h1, h2, h3]

/-- Full evaluation of a non-skipped row on a live connection when
both coercions succeed: the outcome of one store call on the argument
tuple the source builds. -/
theorem processRow_eval (today : Nat) (submit : Store) (row : Row)
    (sku cant val : Cell) (cantI : Int) (valQ : Rat)
    (hl : lookupPhase row = .ok (sku, cant, val)) (hs : pdIsna sku = false)
    (hi : pyIntOfCell cant = .ok cantI) (hf : pyFloatOfCell val = .ok valQ) :
    processRow .live today submit row =
      submitOutcome submit ⟨pyStr sku, today, "ENTRADA", cantI, valQ⟩ := by
  rw [nonskip_row_eval today submit row sku cant val hl hs, hi]
  dsimp only
  rw [hf]

/-- A non-skipped row whose quantity coercion raises is a failure
carrying the `int()` error message. -/
theorem processRow_int_failure (today : Nat) (submit : Store) (row : Row)
    (sku cant val : Cell) (m : String)
    (hl : lookupPhase row = .ok (sku, cant, val)) (hs : pdIsna sku = false)
    (hi : pyIntOfCell cant = .error m) :
    processRow .live today submit row = .failure m := by
  rw [nonskip_row_eval today submit row sku cant val hl hs, hi]

/-- A non-skipped row whose quantity coerces but whose unit-value
coercion raises is a failure carrying the `float()` error message. -/
theorem processRow_float_failure (today : Nat) (submit : Store) (row : Row)
    (sku cant val : Cell) (cantI : Int) (m : String)
    (hl : lookupPhase row = .ok (sku, cant, val)) (hs : pdIsna sku = false)
    (hi : pyIntOfCell cant = .ok cantI) (hf : pyFloatOfCell val = .error m) :
    processRow .live today submit row = .failure m := by
  rw [nonskip_row_eval today submit row sku cant val hl hs, hi]
  dsimp only
  rw [hf]

/-! ## Claims -/

/-- C1: For every input sequence of rows processed by the bulk import
run, each input row leaves exactly one terminal outcome in the trace
(skip, success, or failure); the `exitos` counter counts exactly the
successes, the `errores` list has exactly one entry per failure, and
`success_count + len(failures) + skipped_count = total_input_rows`. -/
theorem bulk_outcome_accounting (conn : ConnState) (today : Nat) (submit : Store)
    (rows : List Row) :
    (runImport conn today submit rows).outcomes.length = rows.length ∧
    (runImport conn today submit rows).exitos =
      (runImport conn today submit rows).outcomes.countP isSucc ∧
    (runImport conn today submit rows).errores.length =
      (runImport conn today submit rows).outcomes.countP isFail ∧
    (runImport conn today submit rows).exitos +
      (runImport conn today submit rows).errores.length +
      (runImport conn today submit rows).outcomes.countP isSkip = rows.length := by
  refine ⟨?_, ?_, ?_, ?_⟩
  · rw [runImport_outcomes, runRows_outcomes]
    exact List.length_map _ _
  · rw [runImport_exitos, runImport_outcomes, runRows_exitos, runRows_outcomes]
  · rw [runImport_errores, runImport_outcomes, runRows_errores_length, runRows_outcomes]
  · rw [runImport_exitos, runImport_errores, runImport_outcomes, runRows_exitos,
      runRows_errores_length, runRows_outcomes, outcome_partition, List.length_map]

/-- C7: the run's one connection, when acquired, is released on every
exit path: for every store behavior and every input (full success,
partial failure, or all rows failing), the run ends with the
connection closed and the final report rendered. -/
theorem conn_released_every_path (today : Nat) (submit : Store) (rows : List Row) :
    (runImport .live today submit rows).closedConn = true ∧
    (runImport .live today submit rows).successShown = true ∧
    (runImport .live today submit rows).runError = none := by
  exact ⟨rfl, rfl, rfl⟩

/-- C9: the dashboard's estimated-value KPI is the sum over products of
`stock_actual * 10`; it is invariant under any change to the stored
prices (and every other column); and it is `0` on an empty inventory. -/
theorem valuation_kpi_shape :
    (∀ df : List DashRow,
      valorAprox df = (df.map (fun r => r.stock_actual * 10)).sum) ∧
    (∀ df₁ df₂ : List DashRow,
      df₁.map (fun r => r.stock_actual) = df₂.map (fun r => r.stock_actual) →
      valorAprox df₁ = valorAprox df₂) ∧
    valorAprox [] = 0 := by
  have hsum : ∀ df : List DashRow,
      valorAprox df = (df.map (fun r => r.stock_actual * 10)).sum := by
    intro df
    rcases df with _ | ⟨r, rest⟩ <;> simp [valorAprox]
  refine ⟨hsum, ?_, rfl⟩
  intro df₁ df₂ h
  rw [hsum, hsum]
  have h10 : ∀ df : List DashRow,
      df.map (fun r => r.stock_actual * 10) =
        (df.map (fun r => r.stock_actual)).map (fun z => z * 10) := by
    intro df
    rw [List.map_map]
    rfl
  rw [h10, h10, h]

/-- C9 witness: two inventories with the same stock column but
different stored prices and alert classes get the same KPI. -/
theorem valuation_kpi_shape_witness :
    valorAprox [⟨4, "NORMAL", 99⟩] = valorAprox [⟨4, "CRÍTICO", 1⟩] :=
  valuation_kpi_shape.2.1 [⟨4, "NORMAL", 99⟩] [⟨4, "CRÍTICO", 1⟩] (by decide)

/-- C2 counterexample: a row whose quantity cell holds the non-numeric
string `"x"` is recorded as a failure (the `int()` ValueError), with no
store call — it is not submitted with quantity zero as the claim
states, even though the store would accept everything. -/
theorem nonnumeric_cant_is_failure :
    (runImport .live 0 okStore [rowBadCant]).errores = [tagMsg 0 (intErrMsg "x")] ∧
    (runImport .live 0 okStore [rowBadCant]).exitos = 0 ∧
    (runImport .live 0 okStore [rowBadCant]).calls = [] := by
  refine ⟨?_, ?_, ?_⟩ <;> decide

/-- C2 (amended): the null default is per-field.  A present-but-null
quantity cell is replaced by zero, and a present-but-null unit-value
cell is replaced by zero, the row then proceeding to submission with
that zero — normally, whenever the other field also coerces.  Nothing
else is defaulted: a non-numeric quantity string is recorded as a row
failure (the `int()` ValueError); a non-numeric unit-value string, with
a coercible quantity, is recorded as a row failure (the `float()`
ValueError); and a missing quantity or unit-value column is recorded
as a row failure (the `KeyError` of that column) rather than
defaulting to zero. -/
theorem numeric_defaults_and_failures (today : Nat) (submit : Store) :
    (∀ row sku valc valQ, colGet row "Código" = some sku → pdNotna sku = true →
      colGet row "cant" = some .na → colGet row "Valor Unitar" = some valc →
      pyFloatOfCell (if pdNotna valc then valc else .i 0) = .ok valQ →
      processRow .live today submit row =
        submitOutcome submit ⟨pyStr sku, today, "ENTRADA", 0, valQ⟩) ∧
    (∀ row sku cantc cantI, colGet row "Código" = some sku → pdNotna sku = true →
      colGet row "cant" = some cantc →
      pyIntOfCell (if pdNotna cantc then cantc else .i 0) = .ok cantI →
      colGet row "Valor Unitar" = some .na →
      processRow .live today submit row =
        submitOutcome submit ⟨pyStr sku, today, "ENTRADA", cantI, 0⟩) ∧
    (∀ row sku v valc, colGet row "Código" = some sku → pdNotna sku = true →
      colGet row "cant" = some (Cell.s v) → pyIntParse v = none →
      colGet row "Valor Unitar" = some valc →
      processRow .live today submit row = .failure (intErrMsg v)) ∧
    (∀ row sku cantc cantI v, colGet row "Código" = some sku → pdNotna sku = true →
      colGet row "cant" = some cantc →
      pyIntOfCell (if pdNotna cantc then cantc else .i 0) = .ok cantI →
      colGet row "Valor Unitar" = some (Cell.s v) → pyFloatParse v = none →
      processRow .live today submit row = .failure (floatErrMsg v)) ∧
    (∀ row sku, colGet row "Código" = some sku → colGet row "cant" = none →
      processRow .live today submit row = .failure (keyErrMsg "cant")) ∧
    (∀ row sku cantc, colGet row "Código" = some sku → colGet row "cant" = some cantc →
      colGet row "Valor Unitar" = none →
      processRow .live today submit row = .failure (keyErrMsg "Valor Unitar")) := by
  refine ⟨?_, ?_, ?_, ?_, ?_, ?_⟩
  · intro row sku valc valQ h1 h2 h3 h4 h5
    have hl := lookupPhase_of_cols row sku .na valc h1 h3 h4
    simp only [pdNotna] at hl
    have hs : pdIsna sku = false := by simp [pdIsna, h2]
    exact processRow_eval today submit row sku (.i 0)
      (if pdNotna valc then valc else .i 0) 0 valQ hl hs rfl h5
  · intro row sku cantc cantI h1 h2 h3 h4 h5
    have hl := lookupPhase_of_cols row sku cantc .na h1 h3 h5
    simp only [pdNotna] at hl
    have hs : pdIsna sku = false := by simp [pdIsna, h2]
    exact processRow_eval today submit row sku
      (if pdNotna cantc then cantc else .i 0) (.i 0) cantI 0 hl hs h4
      (by norm_num [pyFloatOfCell])
  · intro row sku v valc h1 h2 h3 h4 h5
    have hl := lookupPhase_of_cols row sku (.s v) valc h1 h3 h5
    simp only [pdNotna] at hl
    have hs : pdIsna sku = false := by simp [pdIsna, h2]
    exact processRow_int_failure today submit row sku (.s v)
      (if pdNotna valc then valc else .i 0) (intErrMsg v) hl hs
      (by simp [pyIntOfCell, h4])
  · intro row sku cantc cantI v h1 h2 h3 h4 h5 h6
    have hl := lookupPhase_of_cols row sku cantc (.s v) h1 h3 h5
    simp only [pdNotna] at hl
    have hs : pdIsna sku = false := by simp [pdIsna, h2]
    exact processRow_float_failure today submit row sku
      (if pdNotna cantc then cantc else .i 0) (.s v) cantI (floatErrMsg v) hl hs h4
      (by simp [pyFloatOfCell, h6])
  · intro row sku h1 h2
    have hl := lookupPhase_of_no_cant row sku h1 h2
    unfold processRow
    rw [hl]
  · intro row sku cantc h1 h2 h3
    have hl := lookupPhase_of_no_val row sku cantc h1 h2 h3
    unfold processRow
    rw [hl]

/-- C2 witness: on a row whose quantity cell alone is null (unit value
present as the float `2.0`), the run submits the row with quantity `0`
and the row's own unit value. -/
theorem numeric_defaults_and_failures_witness :
    processRow .live 0 okStore rowNullCant =
      submitOutcome okStore ⟨pyStr (Cell.s "A5"), 0, "ENTRADA", 0, 2⟩ :=
  (numeric_defaults_and_failures 0 okStore).1 rowNullCant (Cell.s "A5") (Cell.f 2) 2
    (by decide) (by decide) (by decide) (by decide) rfl

/-- C3: evaluation at the failing input.  When `get_connection` has
returned `None` (store unreachable), the loop still attempts the row:
a per-row `AttributeError` failure is recorded, the final report is
never rendered, and the run-level error only surfaces afterwards.
This contradicts the claim that no row is attempted and no per-row
failure is recorded. -/
theorem conn_none_rows_still_attempted :
    (runImport .unavailable 0 okStore [rowOK]).errores = [tagMsg 0 attrErrMsg] ∧
    (runImport .unavailable 0 okStore [rowOK]).successShown = false ∧
    (runImport .unavailable 0 okStore [rowOK]).runError = some closeErrMsg ∧
    (runImport .unavailable 0 okStore [rowOK]).calls = [] := by
  refine ⟨?_, ?_, ?_, ?_⟩ <;> decide

/-- C4 counterexample: a row with a null SKU cell, from a file missing
the `cant` column, is NOT skipped: the column subscripts run before the
`pd.isna(sku)` check, so the row records a `KeyError` failure outcome —
refuting "skipped entirely before any validation, no outcome
recorded". -/
theorem nullsku_row_not_always_skipped :
    (runImport .live 0 okStore [rowNoCantCol]).outcomes = [.failure (keyErrMsg "cant")] ∧
    (runImport .live 0 okStore [rowNoCantCol]).errores = [tagMsg 0 (keyErrMsg "cant")] ∧
    (runImport .live 0 okStore [rowNoCantCol]).exitos = 0 := by
  refine ⟨?_, ?_, ?_⟩ <;> decide

/-- C4 (amended): a row whose three column subscripts succeed and whose
SKU cell is null is skipped — and a skipped outcome contributes to no
counter, no failure entry, and no store call: the counters count only
success/failure outcomes and the calls are exactly the success calls. -/
theorem nullsku_skip_semantics (conn : ConnState) (today : Nat) (submit : Store) :
    (∀ row sku cant val, lookupPhase row = .ok (sku, cant, val) → pdIsna sku = true →
      processRow conn today submit row = .skipped) ∧
    (∀ rows, (runImport conn today submit rows).exitos =
      (runImport conn today submit rows).outcomes.countP isSucc) ∧
    (∀ rows, (runImport conn today submit rows).errores.length =
      (runImport conn today submit rows).outcomes.countP isFail) ∧
    (∀ rows, (runImport conn today submit rows).calls =
      (runImport conn today submit rows).outcomes.filterMap successCall) := by
  refine ⟨?_, ?_, ?_, ?_⟩
  · intro row sku cant val hl hs
    exact nullsku_skipped conn today submit row sku cant val hl hs
  · intro rows
    rw [runImport_exitos, runImport_outcomes, runRows_exitos, runRows_outcomes]
  · intro rows
    rw [runImport_errores, runImport_outcomes, runRows_errores_length, runRows_outcomes]
  · intro rows
    rw [runImport_calls, runImport_outcomes, runRows_calls, runRows_outcomes]

/-- C4 witness: a null-SKU row with all columns present is skipped. -/
theorem nullsku_skip_semantics_witness :
    processRow .live 0 okStore rowNullSku = .skipped :=
  (nullsku_skip_semantics .live 0 okStore).1 rowNullSku Cell.na (Cell.i 1) (Cell.i 1)
    rfl (by decide)

/-- C5 counterexample: on a one-row file whose only row has a null SKU,
the run completes (the row has been processed) but no progress value is
emitted after it and the fraction never reaches `1.0` — refuting "a
progress value is emitted after every row" and "reaches exactly 1.0
when the last input row has been processed". -/
theorem progress_skips_rows :
    (runImport .live 0 okStore [rowNullSku]).progress = [0] ∧
    (runImport .live 0 okStore [rowNullSku]).outcomes = [.skipped] ∧
    (1 : Rat) ∉ (runImport .live 0 okStore [rowNullSku]).progress := by
  refine ⟨?_, ?_, ?_⟩ <;> decide

/-- C5 (amended): the emitted progress sequence is monotonically
non-decreasing; a fraction `(k+1)/n` is emitted exactly after each
success-or-failure row `k` (skipped rows emit nothing); and `1.0` is
emitted iff the file is non-empty and its last row is not skipped. -/
theorem progress_monotone_characterization (conn : ConnState) (today : Nat)
    (submit : Store) (rows : List Row) :
    ((runImport conn today submit rows).progress).Pairwise (· ≤ ·) ∧
    (∀ x, x ∈ (runImport conn today submit rows).progress ↔
      (x = 0 ∨ ∃ k r, rows[k]? = some r ∧
        processRow conn today submit r ≠ .skipped ∧
        x = ((k + 1 : Nat) : Rat) / (rows.length : Rat))) ∧
    ((1 : Rat) ∈ (runImport conn today submit rows).progress ↔
      ∃ r, rows.getLast? = some r ∧ processRow conn today submit r ≠ .skipped) := by
  refine ⟨?_, ?_, one_mem_progress_iff conn today submit rows⟩
  · rw [runImport_progress]
    refine List.Pairwise.cons ?_ (runRows_progress_sorted conn today submit rows.length 0 rows)
    intro x hx
    exact runRows_progress_nonneg conn today submit rows.length 0 rows x hx
  · intro x
    rw [runImport_progress, List.mem_cons, mem_progress_iff]
    constructor
    · rintro (h0 | ⟨k, r, hk, hp, hx⟩)
      · exact Or.inl h0
      · refine Or.inr ⟨k, r, hk, hp, ?_⟩
        rw [hx]
        norm_num
    · rintro (h0 | ⟨k, r, hk, hp, hx⟩)
      · exact Or.inl h0
      · refine Or.inr ⟨k, r, hk, hp, ?_⟩
        rw [hx]
        norm_num

/-- C5 witness: on a one-row file whose row succeeds, `1.0` is
emitted. -/
theorem progress_monotone_characterization_witness :
    (1 : Rat) ∈ (runImport .live 0 okStore [rowOK]).progress :=
  ((progress_monotone_characterization .live 0 okStore [rowOK]).2.2).mpr
    ⟨rowOK, rfl, by decide⟩

/-- C6: each row's outcome is a function of that row alone (so no
row's failure affects whether or how any later row is attempted); every
row-level error is recorded in `errores` tagged with exactly that row's
index, and nothing else is; and with a live connection the run never
ends in an escalated error. -/
theorem row_failure_isolation (conn : ConnState) (today : Nat) (submit : Store)
    (rows : List Row) :
    (runImport conn today submit rows).outcomes =
      rows.map (processRow conn today submit) ∧
    (∀ x, x ∈ (runImport conn today submit rows).errores ↔
      ∃ k r m, rows[k]? = some r ∧
        processRow conn today submit r = .failure m ∧ x = tagMsg k m) ∧
    (runImport .live today submit rows).runError = none := by
  refine ⟨?_, ?_, rfl⟩
  · rw [runImport_outcomes, runRows_outcomes]
  · intro x
    rw [runImport_errores, mem_errores_iff]
    constructor
    · rintro ⟨k, r, m, hk, hp, hx⟩
      refine ⟨k, r, m, hk, hp, ?_⟩
      rw [hx]
      norm_num
    · rintro ⟨k, r, m, hk, hp, hx⟩
      refine ⟨k, r, m, hk, hp, ?_⟩
      rw [hx]
      norm_num

/-- C6 witness: the failing row of a one-row file is recorded under
index 0 with the coercion error text. -/
theorem row_failure_isolation_witness :
    tagMsg 0 (intErrMsg "x") ∈ (runImport .live 0 okStore [rowBadCant]).errores :=
  ((row_failure_isolation .live 0 okStore [rowBadCant]).2.1 (tagMsg 0 (intErrMsg "x"))).mpr
    ⟨0, rowBadCant, intErrMsg "x", rfl, by decide, rfl⟩

/-- C8 counterexample: a non-skipped row (its unit-value cell holds the
non-numeric string `"abc"`) produces zero `register_movement` calls —
refuting "every non-skipped row is submitted as exactly one call". -/
theorem nonskipped_row_without_call :
    (runImport .live 0 okStore [rowBadVal]).outcomes = [.failure (floatErrMsg "abc")] ∧
    (runImport .live 0 okStore [rowBadVal]).calls = [] := by
  refine ⟨?_, ?_⟩ <;> decide

/-- C8 (amended): each row yields at most one `register_movement` call
— exactly the calls carried by success outcomes, one per submitted row
— and every call made has its direction hard-coded to `"ENTRADA"` and
its date equal to the processing day, regardless of the input row's
contents. -/
theorem calls_inbound_today (conn : ConnState) (today : Nat) (submit : Store)
    (rows : List Row) :
    (runImport conn today submit rows).calls =
      (runImport conn today submit rows).outcomes.filterMap successCall ∧
    (∀ c, c ∈ (runImport conn today submit rows).calls →
      c.tipo = "ENTRADA" ∧ c.fecha = today) := by
  constructor
  · rw [runImport_calls, runImport_outcomes, runRows_calls, runRows_outcomes]
  · intro c hc
    rw [runImport_calls, runRows_calls] at hc
    obtain ⟨o, ho, hoc⟩ := List.mem_filterMap.mp hc
    obtain ⟨r, hrmem, rfl⟩ := List.mem_map.mp ho
    cases hpr : processRow conn today submit r with
    | skipped =>
      rw [hpr] at hoc
      exact absurd hoc (by simp [successCall])
    | failure m =>
      rw [hpr] at hoc
      exact absurd hoc (by simp [successCall])
    | success c0 =>
      rw [hpr] at hoc
      simp only [successCall, Option.some.injEq] at hoc
      subst hoc
      obtain ⟨ht, hf, -⟩ := success_shape conn today submit r c0 hpr
      exact ⟨ht, hf⟩

/-- C8 witness: the one call of a successful one-row run is inbound
and dated with the processing day. -/
theorem calls_inbound_today_witness :
    (Call.mk "A1" 0 "ENTRADA" 5 10).tipo = "ENTRADA" ∧
    (Call.mk "A1" 0 "ENTRADA" 5 10).fecha = 0 :=
  (calls_inbound_today .live 0 okStore [rowOK]).2 (Call.mk "A1" 0 "ENTRADA" 5 10)
    (by decide)

/-- C10: the SKU submitted for a successful row is the Python `str()`
rendering of the raw cell value; a float-typed cell `1001.0` renders
as `"1001.0"` while an int-typed cell `1001` renders as `"1001"`, so
two one-row files differing only in the inferred SKU column type
submit different SKU strings. -/
theorem submitted_sku_is_str (conn : ConnState) (today : Nat) (submit : Store) :
    (∀ row c sku cant val, lookupPhase row = .ok (sku, cant, val) →
      processRow conn today submit row = .success c → c.sku = pyStr sku) ∧
    pyStr (Cell.f 1001) = "1001.0" ∧
    pyStr (Cell.i 1001) = "1001" ∧
    ("1001.0" : String) ≠ "1001" ∧
    (runImport .live 0 okStore [rowFloatSku]).calls = [⟨"1001.0", 0, "ENTRADA", 1, 1⟩] ∧
    (runImport .live 0 okStore [rowIntSku]).calls = [⟨"1001", 0, "ENTRADA", 1, 1⟩] := by
  refine ⟨?_, by decide, by decide, by decide, by decide, by decide⟩
  intro row c sku cant val hl hsucc
  obtain ⟨-, -, sku', cant', val', hl', hsku⟩ :=
    success_shape conn today submit row c hsucc
  rw [hl] at hl'
  injection hl' with htup
  injection htup with h1 h23
  rw [hsku, h1]

/-- C10 witness: on the float-SKU row, the successful call's SKU is
the `str()` rendering of the float cell. -/
theorem submitted_sku_is_str_witness :
    (Call.mk "1001.0" 0 "ENTRADA" 1 1).sku = pyStr (Cell.f 1001) :=
  (submitted_sku_is_str .live 0 okStore).1 rowFloatSku (Call.mk "1001.0" 0 "ENTRADA" 1 1)
    (Cell.f 1001) (Cell.i 1) (Cell.i 1) rfl (by decide)

end ProyectoInventario
